import Mathlib

/-!
Shallow embedding of scripts/doormon_monitor.py (doormon repository).

The script discovers a device over mDNS, polls an HTTP /status endpoint
once per second, reports trigger edges, slow responses and unreachability,
and issues a /reset POST when the user types a reset command.

Python runtime values that can flow through the monitor are modelled by
the inductive type `Py`; the identity comparisons `x is None`, `x is True`
and `x is False` of the source are modelled by equality with the
corresponding `Py` constructors (in CPython, `None`, `True` and `False`
are singletons, so identity and constructor equality coincide).
Wall-clock durations (floats in the source) are modelled by rationals;
every comparison the source performs on them is an exact order comparison,
which the rationals reproduce faithfully at the values of interest.
External effects (the HTTP fetch, the JSON parse, the reset POST, the
mDNS advertisements, the stdin lines) are supplied as explicit data.
-/

namespace Doormon

/-- Source constant POLL_INTERVAL = 1.0 (seconds). -/
def POLL_INTERVAL : ℚ := 1

/-- Source constant SLOW_RESPONSE_THRESHOLD = 3.0 (seconds). -/
def SLOW_RESPONSE_THRESHOLD : ℚ := 3

/-- Source constant DISCOVERY_TIMEOUT = 15.0 (seconds). -/
def DISCOVERY_TIMEOUT : ℚ := 15

/-- Granularity of the discovery wait loop: time.sleep(0.2) in the source. -/
def DISCOVERY_POLL_STEP : ℚ := 1 / 5

/-- Source constant INSTANCE_NAME = "Doormon". -/
def INSTANCE_NAME : String := "Doormon"

/-- Python values that can appear as the decoded "triggered" field or as
the prev_triggered variable: None, booleans, integers, strings. -/
inductive Py where
  | pyNone : Py
  | pyBool : Bool → Py
  | pyInt : Int → Py
  | pyStr : String → Py
  deriving DecidableEq

/-- Outcome of json.loads on the response body, as the monitor sees it:
the body fails to parse, parses to a non-dict (so obj.get raises), or
parses to an object given as an association list of fields. -/
inductive JsonParse where
  | malformed : JsonParse
  | nonObject : JsonParse
  | object : List (String × Py) → JsonParse
  deriving DecidableEq

/-- Behaviour of one HTTP GET /status attempt, with the wall-clock
elapsed time at each possible observation point: connection failure,
socket timeout, HTTP error status (urlopen raises), or a body that was
read at time tRead and whose parse, if it raises, is caught at tFail. -/
inductive FetchOutcome where
  | connFailure : ℚ → FetchOutcome
  | timeout : ℚ → FetchOutcome
  | httpError : Nat → ℚ → FetchOutcome
  | body : JsonParse → ℚ → ℚ → FetchOutcome
  deriving DecidableEq

/-- Python dict .get with a default, over an association list. -/
def dictGet (fields : List (String × Py)) (key : String) (dflt : Py) : Py :=
  match fields with
  | [] => dflt
  | (k, v) :: rest => if k = key then v else dictGet rest key dflt

/-- get_status of the source: GET /status, measure elapsed time, parse the
body as JSON and read obj.get("triggered", False); every exception is
caught and converted to (None, elapsed-at-failure). Total by construction,
mirroring the bare except clause of the source. -/
def get_status : FetchOutcome → Py × ℚ
  | .connFailure t => (Py.pyNone, t)
  | .timeout t => (Py.pyNone, t)
  | .httpError _ t => (Py.pyNone, t)
  | .body jp tRead tFail =>
    match jp with
    | .malformed => (Py.pyNone, tFail)
    | .nonObject => (Py.pyNone, tFail)
    | .object fields => (dictGet fields "triggered" (Py.pyBool false), tRead)

/-- Behaviour of one HTTP POST /reset attempt: urlopen raises, or returns
a response with the given status code. -/
inductive PostOutcome where
  | failure : PostOutcome
  | response : Nat → PostOutcome
  deriving DecidableEq

/-- post_reset of the source: POST /reset, return resp.getcode() == 200,
with every exception caught and converted to False. -/
def post_reset : PostOutcome → Bool
  | .failure => false
  | .response code => code == 200

/-- Python str.lower on one character, for the ASCII range the commands
and service names use. -/
def pyLowerChar (c : Char) : Char :=
  if 'A' ≤ c ∧ c ≤ 'Z' then Char.ofNat (c.toNat + 32) else c

/-- Python str.lower over a string, as a character list. -/
def lowerStr (s : String) : List Char :=
  s.toList.map pyLowerChar

/-- Whitespace as Python str.strip removes it. -/
def isSpaceChar (c : Char) : Bool :=
  c = ' ' || c = '\t' || c = '\n' || c = '\r' || c = Char.ofNat 11 || c = Char.ofNat 12

/-- Python str.strip: drop whitespace from both ends. -/
def stripChars (l : List Char) : List Char :=
  ((l.dropWhile isSpaceChar).reverse.dropWhile isSpaceChar).reverse

/-- The stdin filter of input_thread: a line sets the reset flag when
line.strip().lower() is "r" or "reset". -/
def is_reset_command (line : String) : Bool :=
  let s := (stripChars line.toList).map pyLowerChar
  s = "r".toList || s = "reset".toList

/-- Number of flag-setting lines among the stdin lines that arrived since
the previous poll cycle read the flag. -/
def reset_cmd_count (lines : List String) : Nat :=
  (lines.filter is_reset_command).length

/-- reset_requested.is_set() at the top of a poll cycle: the threading
Event is set when at least one reset command arrived, and setting it is
idempotent, so only emptiness of the command batch matters. -/
def flag_at_check (lines : List String) : Bool :=
  decide (0 < reset_cmd_count lines)

/-- Events printed by the main loop. -/
inductive Event where
  | noResponse : ℚ → Event
  | slow : ℚ → Event
  | triggeredEvt : Event
  | resetCleared : Event
  | resetFailed : Event
  deriving DecidableEq

/-- Environment of one poll cycle: the stdin lines that arrived since the
previous cycle read the flag, the behaviour of post_reset if it is
invoked, and the behaviour of the HTTP status fetch. -/
structure CycleInput where
  lines : List String
  resetOk : Bool
  fetch : FetchOutcome
  deriving DecidableEq

/-- Result of the reset-handling prefix of a cycle: the value of
prev_triggered afterwards, the reset flag afterwards, the number of
post_reset invocations, and the events printed. -/
structure ResetOut where
  state : Py
  flag : Bool
  calls : Nat
  events : List Event
  deriving DecidableEq

/-- Lines 132-138 of the source: if reset_requested.is_set(), clear the
flag and invoke post_reset once; on success set prev_triggered to False
and print the cleared event, on failure print the failed event and leave
prev_triggered unchanged. -/
def reset_step (prev : Py) (inp : CycleInput) : ResetOut :=
  if flag_at_check inp.lines then
    if inp.resetOk then ⟨Py.pyBool false, false, 1, [Event.resetCleared]⟩
    else ⟨prev, false, 1, [Event.resetFailed]⟩
  else ⟨prev, false, 0, []⟩

/-- The value of prev_triggered at the moment get_status is invoked in a
cycle (after the reset handling, before the poll). -/
def state_before_poll (prev : Py) (inp : CycleInput) : Py :=
  (reset_step prev inp).state

/-- Result of one full poll cycle. -/
structure CycleOutput where
  state : Py
  resetCalls : Nat
  events : List Event
  deriving DecidableEq

/-- Lines 132-148 of the source, one iteration of the while loop: reset
handling, then get_status; if triggered is None print the no-response
event and leave prev_triggered alone; otherwise print the slow event when
elapsed exceeds the threshold, print the triggered event when
prev_triggered is False and triggered is True, and store the sample in
prev_triggered. -/
def run_cycle (prev : Py) (inp : CycleInput) : CycleOutput :=
  if (get_status inp.fetch).1 = Py.pyNone then
    ⟨(reset_step prev inp).state, (reset_step prev inp).calls,
      (reset_step prev inp).events ++
        [Event.noResponse (get_status inp.fetch).2]⟩
  else
    ⟨(get_status inp.fetch).1, (reset_step prev inp).calls,
      (reset_step prev inp).events ++
        (if SLOW_RESPONSE_THRESHOLD < (get_status inp.fetch).2 then
          [Event.slow (get_status inp.fetch).2]
        else []) ++
        (if (reset_step prev inp).state = Py.pyBool false ∧
            (get_status inp.fetch).1 = Py.pyBool true then
          [Event.triggeredEvt]
        else [])⟩

/-- The poll loop run over a finite list of per-cycle environments,
starting from prev_triggered = None before the first cycle. -/
def run_loop : Py → List CycleInput → List CycleOutput
  | _, [] => []
  | prev, inp :: rest =>
    let out := run_cycle prev inp
    out :: run_loop out.state rest

/-! ### Discovery -/

/-- A zeroconf ServiceInfo as the listener reads it: the addresses
attribute (absent or None collapse to none, a value is a list of raw
address byte strings), the legacy address attribute (outer none when the
attribute is absent, inner none when its value is None), and the port
(none when the advertised port is None). -/
structure SvcInfo where
  addresses : Option (List (List Nat))
  address : Option (Option (List Nat))
  port : Option Nat
  deriving DecidableEq

/-- socket.inet_ntoa on a 4-byte address: dotted decimal. -/
def inet_ntoa (l : List Nat) : String :=
  String.intercalate "." (l.map (fun b => toString b))

/-- info.port or 80: Python or treats None and 0 as falsy. -/
def port_or_80 : Option Nat → Nat
  | none => 80
  | some p => if p = 0 then 80 else p

/-- Lines 51-54 of the source: use info.addresses when the attribute is
present and truthy (a non-empty list), otherwise fall back to the legacy
single address attribute when present, otherwise no candidates. -/
def cand_addrs (i : SvcInfo) : List (Option (List Nat)) :=
  let legacy : List (Option (List Nat)) :=
    match i.address with
    | some v => [v]
    | none => []
  match i.addresses with
  | some l => if l.isEmpty then legacy else l.map some
  | none => legacy

/-- The for loop of add_service over the candidate addresses: take the
first address that is not None and has exactly 4 bytes, render it dotted
decimal, pair it with the defaulted port. -/
def scan_addrs (port : Option Nat) : List (Option (List Nat)) → Option (String × Nat)
  | [] => none
  | a :: rest =>
    match a with
    | none => scan_addrs port rest
    | some l =>
      if l.length = 4 then some (inet_ntoa l, port_or_80 port)
      else scan_addrs port rest

/-- Case-insensitive substring helper: does the needle occur at the head
of the haystack. -/
def leadEq : List Char → List Char → Bool
  | [], _ => true
  | _ :: _, [] => false
  | a :: as, b :: bs => a = b && leadEq as bs

/-- Does the needle occur anywhere in the haystack. -/
def subOccurs (needle : List Char) : List Char → Bool
  | [] => leadEq needle []
  | b :: bs => leadEq needle (b :: bs) || subOccurs needle bs

/-- Python substring membership after lowering both sides:
needle.lower() in hay.lower(). -/
def strContains (hay needle : String) : Bool :=
  subOccurs (lowerStr needle) (lowerStr hay)

/-- Listener.add_service of the source, as a transformer of the shared
result slot: if the result is already resolved, return immediately; skip
the candidate when get_service_info returned None; skip it when the
instance name does not contain "Doormon" case-insensitively; otherwise
scan its addresses for the first 4-byte one. -/
def add_service (result : Option (String × Nat)) (name : String)
    (info : Option SvcInfo) : Option (String × Nat) :=
  match result with
  | some _ => result
  | none =>
    match info with
    | none => none
    | some i =>
      if strContains name INSTANCE_NAME then
        scan_addrs i.port (cand_addrs i)
      else none

/-- A candidate advertisement: the instance name and the resolved
ServiceInfo (none when get_service_info returned None). -/
abbrev Cand := String × Option SvcInfo

/-- The result slot after the listener has processed a sequence of
advertisements in order. -/
def process_events (evts : List Cand) : Option (String × Nat) :=
  evts.foldl (fun r e => add_service r e.1 e.2) none

/-- Number of sleep(0.2) steps before the monotonic clock reaches the
15-second discovery deadline. -/
def discover_steps : Nat := 75

/-- The wait loop of discover_device: read the result slot at successive
0.2-second steps, stop early when it is filled, return whatever the slot
holds when the deadline has passed. avail k is the slot content at
step k. -/
def discover_loop (avail : Nat → Option (String × Nat)) :
    Nat → Nat → Option (String × Nat)
  | 0, k => avail k
  | fuel + 1, k =>
    match avail k with
    | some r => some r
    | none => discover_loop avail fuel (k + 1)

/-- discover_device of the source: poll the result slot until it fills or
the 15-second deadline elapses. -/
def discover_device (avail : Nat → Option (String × Nat)) :
    Option (String × Nat) :=
  discover_loop avail discover_steps 0

/-- What main does with the discovery result before any poll cycle:
sys.exit(1) when discovery returned None, otherwise enter the poll loop
with the resolved host and port. -/
inductive MainResult where
  | fatalExit : Nat → MainResult
  | pollLoop : String → Nat → MainResult
  deriving DecidableEq

/-- Lines 103-107 of the source: if not addr, print a diagnostic and exit
with status 1; otherwise unpack the address and proceed to polling. -/
def main_start (d : Option (String × Nat)) : MainResult :=
  match d with
  | none => MainResult.fatalExit 1
  | some hp => MainResult.pollLoop hp.1 hp.2

/-- Spec-side helper: the first 4-byte address among the candidates. -/
def first_ipv4 : List (Option (List Nat)) → Option (List Nat)
  | [] => none
  | none :: rest => first_ipv4 rest
  | some l :: rest => if l.length = 4 then some l else first_ipv4 rest

/-- Spec-side restatement of acceptance of a single candidate, following
the words of the spec: accept a resolved candidate whose advertised name
contains the target instance name case-insensitively and which carries at
least one 4-byte address; return that first 4-byte address in
dotted-decimal form with the advertised port, defaulted to 80 when zero
or absent. -/
def spec_accept (name : String) (info : Option SvcInfo) :
    Option (String × Nat) :=
  match info with
  | none => none
  | some i =>
    if strContains name INSTANCE_NAME then
      (first_ipv4 (cand_addrs i)).map (fun l => (inet_ntoa l, port_or_80 i.port))
    else none

/-- Spec-side restatement of the whole discovery acceptance: the first
advertisement the spec-side acceptance accepts wins, later ones are
ignored. -/
def first_accept : List Cand → Option (String × Nat)
  | [] => none
  | e :: rest =>
    match spec_accept e.1 e.2 with
    | some r => some r
    | none => first_accept rest

/-! ### Helper lemmas -/

theorem run_cycle_events (prev : Py) (inp : CycleInput) :
    (run_cycle prev inp).events =
      if (get_status inp.fetch).1 = Py.pyNone then
        (reset_step prev inp).events ++
          [Event.noResponse (get_status inp.fetch).2]
      else
        (reset_step prev inp).events ++
          (if SLOW_RESPONSE_THRESHOLD < (get_status inp.fetch).2 then
            [Event.slow (get_status inp.fetch).2]
          else []) ++
          (if (reset_step prev inp).state = Py.pyBool false ∧
              (get_status inp.fetch).1 = Py.pyBool true then
            [Event.triggeredEvt]
          else []) := by
  unfold run_cycle
  split_ifs <;> rfl

theorem run_cycle_state (prev : Py) (inp : CycleInput) :
    (run_cycle prev inp).state =
      if (get_status inp.fetch).1 = Py.pyNone then (reset_step prev inp).state
      else (get_status inp.fetch).1 := by
  unfold run_cycle
  split_ifs <;> rfl

theorem run_cycle_calls (prev : Py) (inp : CycleInput) :
    (run_cycle prev inp).resetCalls = (reset_step prev inp).calls := by
  unfold run_cycle
  split_ifs <;> rfl

theorem reset_step_calls (prev : Py) (inp : CycleInput) :
    (reset_step prev inp).calls = if flag_at_check inp.lines then 1 else 0 := by
  unfold reset_step
  split_ifs <;> rfl

theorem reset_step_no_cmd (prev : Py) (inp : CycleInput)
    (h : reset_cmd_count inp.lines = 0) : reset_step prev inp = ⟨prev, false, 0, []⟩ := by
  unfold reset_step flag_at_check
  rw [h]
  rfl

theorem trig_mem (prev : Py) (inp : CycleInput) :
    Event.triggeredEvt ∈ (run_cycle prev inp).events ↔
      state_before_poll prev inp = Py.pyBool false ∧
        (get_status inp.fetch).1 = Py.pyBool true := by
  unfold state_before_poll
  rw [run_cycle_events]
  unfold reset_step
  split_ifs <;> simp_all

theorem slow_mem (prev : Py) (inp : CycleInput)
    (h : (get_status inp.fetch).1 ≠ Py.pyNone) :
    Event.slow (get_status inp.fetch).2 ∈ (run_cycle prev inp).events ↔
      SLOW_RESPONSE_THRESHOLD < (get_status inp.fetch).2 := by
  rw [run_cycle_events]
  unfold reset_step
  split_ifs <;> simp_all

theorem reset_events_sub (prev : Py) (inp : CycleInput) :
    ∀ e ∈ (reset_step prev inp).events, e ∈ (run_cycle prev inp).events := by
  intro e he
  rw [run_cycle_events]
  split_ifs <;> simp [he]

theorem foldl_frozen (evts : List Cand) (r : String × Nat) :
    evts.foldl (fun a e => add_service a e.1 e.2) (some r) = some r := by
  induction evts with
  | nil => rfl
  | cons e rest ih =>
    rw [List.foldl_cons]
    exact ih

theorem scan_addrs_spec (port : Option Nat) (l : List (Option (List Nat))) :
    scan_addrs port l =
      (first_ipv4 l).map (fun a => (inet_ntoa a, port_or_80 port)) := by
  induction l with
  | nil => rfl
  | cons a rest ih =>
    cases a with
    | none => simpa [scan_addrs, first_ipv4] using ih
    | some v =>
      unfold scan_addrs first_ipv4
      split_ifs <;> simp_all

theorem add_service_none_spec (n : String) (i : Option SvcInfo) :
    add_service none n i = spec_accept n i := by
  cases i with
  | none => rfl
  | some v =>
    unfold add_service spec_accept
    split_ifs with h
    · exact scan_addrs_spec v.port (cand_addrs v)
    · rfl

theorem process_events_spec (evts : List Cand) :
    process_events evts = first_accept evts := by
  induction evts with
  | nil => rfl
  | cons e rest ih =>
    unfold process_events at ih ⊢
    rw [List.foldl_cons]
    unfold first_accept
    rw [← add_service_none_spec e.1 e.2]
    cases h : add_service none e.1 e.2 with
    | none => exact ih
    | some r => exact foldl_frozen rest r

theorem first_accept_none (evts : List Cand)
    (h : ∀ e ∈ evts, spec_accept e.1 e.2 = none) : first_accept evts = none := by
  induction evts with
  | nil => rfl
  | cons e rest ih =>
    unfold first_accept
    rw [h e (by simp)]
    exact ih (fun x hx => h x (by simp [hx]))

theorem discover_loop_none (avail : Nat → Option (String × Nat)) :
    ∀ fuel k, (∀ j, k ≤ j → j ≤ k + fuel → avail j = none) →
      discover_loop avail fuel k = none := by
  intro fuel
  induction fuel with
  | zero => exact fun k h => h k le_rfl (Nat.le_add_right k 0)
  | succ n ih =>
    intro k h
    have h0 : avail k = none := h k le_rfl (Nat.le_add_right _ _)
    simp only [discover_loop, h0]
    exact ih (k + 1) (fun j hj1 hj2 => h j (Nat.le_of_succ_le hj1) (by omega))

/-! ### Claims -/

/-- C1: in every poll cycle, the triggered event is printed if and only
if prev_triggered right before the get_status call is the boolean False
and the sampled outcome is the boolean True; it is never printed on
sustained True, never when the sample is unreachable, and never in a
first cycle without a reset, where prev_triggered is still None. -/
theorem C1_triggered_edge_iff (prev : Py) (inp : CycleInput) :
    (Event.triggeredEvt ∈ (run_cycle prev inp).events ↔
      state_before_poll prev inp = Py.pyBool false ∧
        (get_status inp.fetch).1 = Py.pyBool true) ∧
    (state_before_poll prev inp = Py.pyBool true →
      Event.triggeredEvt ∉ (run_cycle prev inp).events) ∧
    ((get_status inp.fetch).1 = Py.pyNone →
      Event.triggeredEvt ∉ (run_cycle prev inp).events) ∧
    (reset_cmd_count inp.lines = 0 →
      Event.triggeredEvt ∉ (run_cycle Py.pyNone inp).events) := by
  refine ⟨trig_mem prev inp, ?_, ?_, ?_⟩
  · intro h hmem
    have h2 := ((trig_mem prev inp).1 hmem).1
    rw [h] at h2
    simp at h2
  · intro h hmem
    have h2 := ((trig_mem prev inp).1 hmem).2
    rw [h] at h2
    simp at h2
  · intro h hmem
    have h2 := ((trig_mem Py.pyNone inp).1 hmem).1
    unfold state_before_poll at h2
    rw [reset_step_no_cmd Py.pyNone inp h] at h2
    simp at h2

/-- Witness for C1 at concrete inputs: the edge fires from a False
baseline and does not fire on the first sample. -/
theorem C1_triggered_edge_iff_witness :
    Event.triggeredEvt ∈
      (run_cycle (Py.pyBool false)
        ⟨[], false,
          FetchOutcome.body (JsonParse.object [("triggered", Py.pyBool true)]) 1 1⟩).events ∧
    Event.triggeredEvt ∉
      (run_cycle Py.pyNone
        ⟨[], false,
          FetchOutcome.body (JsonParse.object [("triggered", Py.pyBool true)]) 1 1⟩).events :=
  ⟨(C1_triggered_edge_iff (Py.pyBool false) _).1.mpr (by decide),
   (C1_triggered_edge_iff Py.pyNone _).2.2.2 (by decide)⟩

/-- C2: a cycle whose sample is unreachable leaves prev_triggered exactly
as it was before the poll, and with no reset command it is left fully
unchanged; consequently on the outcome sequence NotTriggered,
Unreachable, Triggered the triggered event fires in the third cycle. -/
theorem C2_unreachable_preserves (prev : Py) (inp : CycleInput)
    (h : (get_status inp.fetch).1 = Py.pyNone) :
    (run_cycle prev inp).state = state_before_poll prev inp ∧
    (reset_cmd_count inp.lines = 0 → (run_cycle prev inp).state = prev) ∧
    (run_loop Py.pyNone
        [⟨[], false,
           FetchOutcome.body (JsonParse.object [("triggered", Py.pyBool false)]) 1 1⟩,
         ⟨[], false, FetchOutcome.connFailure 4⟩,
         ⟨[], false,
           FetchOutcome.body (JsonParse.object [("triggered", Py.pyBool true)]) 1 1⟩]).map
      CycleOutput.events = [[], [Event.noResponse 4], [Event.triggeredEvt]] := by
  refine ⟨?_, ?_, by decide⟩
  · rw [run_cycle_state, if_pos h]
    rfl
  · intro h0
    rw [run_cycle_state, if_pos h]
    rw [show (reset_step prev inp).state = state_before_poll prev inp from rfl]
    unfold state_before_poll
    rw [reset_step_no_cmd prev inp h0]

/-- Witness for C2: an unreachable sample preserves a True baseline. -/
theorem C2_unreachable_preserves_witness :
    (run_cycle (Py.pyBool true) ⟨[], false, FetchOutcome.connFailure 4⟩).state
      = Py.pyBool true :=
  (C2_unreachable_preserves (Py.pyBool true) _ (by decide)).2.1 (by decide)

/-- C3: get_status is total, and on every failure mode it returns the
None outcome paired with the elapsed time measured at the failure point;
a malformed or non-object body is classified exactly like a network
failure observed at the same instant. -/
theorem C3_get_status_unreachable (t tRead tFail : ℚ) (code : Nat) :
    get_status (FetchOutcome.connFailure t) = (Py.pyNone, t) ∧
    get_status (FetchOutcome.timeout t) = (Py.pyNone, t) ∧
    get_status (FetchOutcome.httpError code t) = (Py.pyNone, t) ∧
    get_status (FetchOutcome.body JsonParse.malformed tRead tFail) = (Py.pyNone, tFail) ∧
    get_status (FetchOutcome.body JsonParse.nonObject tRead tFail) = (Py.pyNone, tFail) ∧
    get_status (FetchOutcome.body JsonParse.malformed tRead tFail) =
      get_status (FetchOutcome.connFailure tFail) ∧
    get_status (FetchOutcome.body JsonParse.nonObject tRead tFail) =
      get_status (FetchOutcome.timeout tFail) :=
  ⟨rfl, rfl, rfl, rfl, rfl, rfl, rfl⟩

/-- C4: when the reset flag is set at the start of a cycle, the loop
clears the flag and calls post_reset exactly once; on success
prev_triggered becomes False before the poll and the cleared event is
printed, so a True sample in that same cycle fires the edge even from a
True baseline; on failure prev_triggered is unchanged and the failed
event is printed. -/
theorem C4_reset_flow (prev : Py) (inp : CycleInput)
    (h : 0 < reset_cmd_count inp.lines) :
    (reset_step prev inp).flag = false ∧
    (run_cycle prev inp).resetCalls = 1 ∧
    (inp.resetOk = true →
      state_before_poll prev inp = Py.pyBool false ∧
        Event.resetCleared ∈ (run_cycle prev inp).events) ∧
    (inp.resetOk = false →
      state_before_poll prev inp = prev ∧
        Event.resetFailed ∈ (run_cycle prev inp).events) ∧
    (inp.resetOk = true → (get_status inp.fetch).1 = Py.pyBool true →
      Event.triggeredEvt ∈ (run_cycle prev inp).events) := by
  have hf : flag_at_check inp.lines = true := by
    unfold flag_at_check
    exact decide_eq_true h
  cases hok : inp.resetOk with
  | true =>
    have hstep : reset_step prev inp = ⟨Py.pyBool false, false, 1, [Event.resetCleared]⟩ := by
      unfold reset_step
      simp [hf, hok]
    refine ⟨by rw [hstep], by rw [run_cycle_calls, hstep], ?_, ?_, ?_⟩
    · intro _
      refine ⟨by unfold state_before_poll; rw [hstep], ?_⟩
      exact reset_events_sub prev inp Event.resetCleared (by rw [hstep]; simp)
    · intro hc
      simp at hc
    · intro _ hsample
      exact (trig_mem prev inp).mpr ⟨by unfold state_before_poll; rw [hstep], hsample⟩
  | false =>
    have hstep : reset_step prev inp = ⟨prev, false, 1, [Event.resetFailed]⟩ := by
      unfold reset_step
      simp [hf, hok]
    refine ⟨by rw [hstep], by rw [run_cycle_calls, hstep], ?_, ?_, ?_⟩
    · intro hc
      simp at hc
    · intro _
      refine ⟨by unfold state_before_poll; rw [hstep], ?_⟩
      exact reset_events_sub prev inp Event.resetFailed (by rw [hstep]; simp)
    · intro hc
      simp at hc

/-- Witness for C4: one queued reset command gives one post_reset call,
and after a successful reset a True sample fires the edge even though
the baseline before the cycle was already True. -/
theorem C4_reset_flow_witness :
    (run_cycle (Py.pyBool true)
      ⟨["r"], true,
        FetchOutcome.body (JsonParse.object [("triggered", Py.pyBool true)]) 1 1⟩).resetCalls
      = 1 ∧
    Event.triggeredEvt ∈
      (run_cycle (Py.pyBool true)
        ⟨["r"], true,
          FetchOutcome.body (JsonParse.object [("triggered", Py.pyBool true)]) 1 1⟩).events :=
  ⟨(C4_reset_flow (Py.pyBool true) _ (by decide)).2.1,
   (C4_reset_flow (Py.pyBool true) _ (by decide)).2.2.2.2 rfl (by decide)⟩

/-- C5: post_reset returns true exactly when the POST produced a
response with status code 200; every exception and every other status
code yields false, and the function consists of a single attempt. -/
theorem C5_post_reset_iff (o : PostOutcome) :
    post_reset o = true ↔ o = PostOutcome.response 200 := by
  cases o with
  | failure => simp [post_reset]
  | response code => simp [post_reset]

/-- Witness for C5 at status 200, status 404 and a raised exception. -/
theorem C5_post_reset_iff_witness :
    post_reset (PostOutcome.response 200) = true ∧
    post_reset (PostOutcome.response 404) ≠ true ∧
    post_reset PostOutcome.failure ≠ true :=
  ⟨(C5_post_reset_iff (PostOutcome.response 200)).mpr rfl,
   fun hb => absurd ((C5_post_reset_iff (PostOutcome.response 404)).1 hb) (by decide),
   fun hb => absurd ((C5_post_reset_iff PostOutcome.failure).1 hb) (by decide)⟩

/-- C6: on a reachable sample the slow event is printed exactly when the
elapsed time strictly exceeds the 3.0-second threshold, independently of
the edge check; at 3.5 seconds it is printed even in the very first
cycle, at 2.9 seconds it is not. -/
theorem C6_slow_response (prev : Py) (inp : CycleInput)
    (h : (get_status inp.fetch).1 ≠ Py.pyNone) :
    (Event.slow (get_status inp.fetch).2 ∈ (run_cycle prev inp).events ↔
      SLOW_RESPONSE_THRESHOLD < (get_status inp.fetch).2) ∧
    (run_cycle Py.pyNone
        ⟨[], false,
          FetchOutcome.body (JsonParse.object [("triggered", Py.pyBool false)])
            (7 / 2) (7 / 2)⟩).events
      = [Event.slow (7 / 2)] ∧
    (run_cycle Py.pyNone
        ⟨[], false,
          FetchOutcome.body (JsonParse.object [("triggered", Py.pyBool false)])
            (29 / 10) (29 / 10)⟩).events
      = [] := by
  refine ⟨slow_mem prev inp h, ?_, ?_⟩
  · norm_num [run_cycle, reset_step, flag_at_check, reset_cmd_count, get_status, dictGet,
      SLOW_RESPONSE_THRESHOLD, List.filter]
    rfl
  · norm_num [run_cycle, reset_step, flag_at_check, reset_cmd_count, get_status, dictGet,
      SLOW_RESPONSE_THRESHOLD, List.filter]
    rfl

/-- Witness for C6: a 4-second reachable first sample prints the slow
event. -/
theorem C6_slow_response_witness :
    Event.slow
      (get_status
        (FetchOutcome.body (JsonParse.object [("triggered", Py.pyBool false)]) 4 4)).2 ∈
      (run_cycle Py.pyNone
        ⟨[], false,
          FetchOutcome.body (JsonParse.object [("triggered", Py.pyBool false)]) 4 4⟩).events :=
  (C6_slow_response Py.pyNone _ (by decide)).1.mpr (by decide)

/-- C7: the listener accepts the first candidate whose name contains the
target instance name case-insensitively and which carries a 4-byte
address, returns that address dotted decimal with the advertised port
defaulted to 80 when zero or absent, and ignores every candidate once
the result is resolved; the code-side listener coincides with the
spec-side first-match acceptance. -/
theorem C7_discovery_accept (r : String × Nat) (n : String) (i : Option SvcInfo)
    (evts : List Cand) (p : Nat) (hp : p ≠ 0) :
    add_service (some r) n i = some r ∧
    add_service none n i = spec_accept n i ∧
    process_events evts = first_accept evts ∧
    port_or_80 none = 80 ∧
    port_or_80 (some 0) = 80 ∧
    port_or_80 (some p) = p ∧
    inet_ntoa [192, 168, 4, 21] = "192.168.4.21" ∧
    process_events
        [("Doormon._http._tcp.local.",
           some ⟨some [[192, 168, 1, 5]], none, some 8080⟩),
         ("doormonX._http._tcp.local.",
           some ⟨some [[10, 0, 0, 1]], none, none⟩)]
      = some ("192.168.1.5", 8080) := by
  refine ⟨rfl, add_service_none_spec n i, process_events_spec evts, rfl, rfl, ?_,
    by decide, by decide⟩
  simp [port_or_80, hp]

/-- Witness for C7: a nonzero advertised port is kept as is. -/
theorem C7_discovery_accept_witness : port_or_80 (some 8080) = 8080 :=
  (C7_discovery_accept ("", 0) "" none [] 8080 (by decide)).2.2.2.2.2.1

/-- C8: when the result slot never fills during the 15-second discovery
window, polled at 0.2-second steps, discover_device returns None and
main exits with status 1 without entering the poll loop; the slot stays
empty whenever no advertisement is accepted. -/
theorem C8_discovery_timeout (avail : Nat → Option (String × Nat))
    (h : ∀ k, k ≤ discover_steps → avail k = none) :
    discover_device avail = none ∧
    main_start (discover_device avail) = MainResult.fatalExit 1 ∧
    (∀ evts : List Cand, (∀ e ∈ evts, spec_accept e.1 e.2 = none) →
      process_events evts = none) ∧
    (discover_steps : ℚ) * DISCOVERY_POLL_STEP = DISCOVERY_TIMEOUT := by
  have hd : discover_device avail = none := by
    unfold discover_device
    exact discover_loop_none avail discover_steps 0 (fun j hj1 hj2 => h j (by omega))
  refine ⟨hd, by rw [hd]; rfl, ?_,
    by norm_num [discover_steps, DISCOVERY_POLL_STEP, DISCOVERY_TIMEOUT]⟩
  intro evts hnone
  rw [process_events_spec]
  exact first_accept_none evts hnone

/-- Witness for C8: with a permanently empty slot, discovery yields None
and main exits with status 1. -/
theorem C8_discovery_timeout_witness :
    discover_device (fun _ => none) = none ∧
    main_start (discover_device (fun _ => none)) = MainResult.fatalExit 1 :=
  ⟨(C8_discovery_timeout (fun _ => none) (fun _ _ => rfl)).1,
   (C8_discovery_timeout (fun _ => none) (fun _ _ => rfl)).2.1⟩

/-- C9: each poll cycle issues at most one post_reset call, namely one
exactly when the flag is set at the check; the flag is set by any line
whose stripped lowercase form is r or reset, setting it is idempotent,
and two reset commands queued within one cycle still give exactly one
call. -/
theorem C9_reset_coalescing (prev : Py) (inp : CycleInput) (resetOk : Bool)
    (fetch : FetchOutcome) :
    (run_cycle prev inp).resetCalls ≤ 1 ∧
    (run_cycle prev inp).resetCalls = (if flag_at_check inp.lines then 1 else 0) ∧
    reset_cmd_count ["r", "reset"] = 2 ∧
    (run_cycle prev ⟨["r", "reset"], resetOk, fetch⟩).resetCalls = 1 ∧
    is_reset_command " R " = true ∧
    is_reset_command "ReSeT" = true ∧
    is_reset_command "open" = false := by
  have hc : (run_cycle prev inp).resetCalls = if flag_at_check inp.lines then 1 else 0 := by
    rw [run_cycle_calls, reset_step_calls]
  refine ⟨?_, hc, by decide, ?_, by decide, by decide, by decide⟩
  · rw [hc]
    split_ifs <;> omega
  · rw [run_cycle_calls, reset_step_calls]
    rw [show ({ lines := ["r", "reset"], resetOk := resetOk, fetch := fetch } :
        CycleInput).lines = ["r", "reset"] from rfl]
    decide

/-- C10: a successful response whose triggered field is any value other
than the booleans True and False is returned unchanged by get_status,
never fires the edge event, and once stored in prev_triggered suppresses
the edge on a following True sample; the concrete run with the integer 1
in the middle prints no triggered event at all. -/
theorem C10_nonbool_value (v : Py) (hT : v ≠ Py.pyBool true) (hF : v ≠ Py.pyBool false)
    (tRead tFail : ℚ) (prev : Py) (inp : CycleInput) :
    get_status (FetchOutcome.body (JsonParse.object [("triggered", v)]) tRead tFail)
      = (v, tRead) ∧
    ((get_status inp.fetch).1 = v →
      Event.triggeredEvt ∉ (run_cycle prev inp).events) ∧
    (v ≠ Py.pyNone → (get_status inp.fetch).1 = v → (run_cycle prev inp).state = v) ∧
    (reset_cmd_count inp.lines = 0 →
      Event.triggeredEvt ∉ (run_cycle v inp).events) ∧
    (run_loop Py.pyNone
        [⟨[], false,
           FetchOutcome.body (JsonParse.object [("triggered", Py.pyBool false)]) 1 1⟩,
         ⟨[], false,
           FetchOutcome.body (JsonParse.object [("triggered", Py.pyInt 1)]) 1 1⟩,
         ⟨[], false,
           FetchOutcome.body (JsonParse.object [("triggered", Py.pyBool true)]) 1 1⟩]).map
      CycleOutput.events = [[], [], []] := by
  refine ⟨?_, ?_, ?_, ?_, by decide⟩
  · simp [get_status, dictGet]
  · intro hv hmem
    have h2 := ((trig_mem prev inp).1 hmem).2
    rw [hv] at h2
    exact hT h2
  · intro hvN hv
    have hne : (get_status inp.fetch).1 ≠ Py.pyNone := by
      rw [hv]
      exact hvN
    rw [run_cycle_state, if_neg hne]
    exact hv
  · intro h0 hmem
    have h1 := ((trig_mem v inp).1 hmem).1
    unfold state_before_poll at h1
    rw [reset_step_no_cmd v inp h0] at h1
    exact hF h1

/-- Witness for C10 at the integer 1: it passes through get_status
unchanged and, stored as the baseline, suppresses the edge on a True
sample. -/
theorem C10_nonbool_value_witness :
    get_status (FetchOutcome.body (JsonParse.object [("triggered", Py.pyInt 1)]) 1 1)
      = (Py.pyInt 1, 1) ∧
    Event.triggeredEvt ∉
      (run_cycle (Py.pyInt 1)
        ⟨[], false,
          FetchOutcome.body (JsonParse.object [("triggered", Py.pyBool true)]) 1 1⟩).events :=
  ⟨(C10_nonbool_value (Py.pyInt 1) (by decide) (by decide) 1 1 Py.pyNone
      ⟨[], false, FetchOutcome.connFailure 1⟩).1,
   (C10_nonbool_value (Py.pyInt 1) (by decide) (by decide) 1 1 (Py.pyInt 1)
      ⟨[], false,
        FetchOutcome.body (JsonParse.object [("triggered", Py.pyBool true)]) 1 1⟩).2.2.2.1
     (by decide)⟩

end Doormon
